import Mathlib

/-!
Verification of the sfdc-mcp gateway (`server.js`): a shallow embedding of
the six tool handlers (soql_query, get_case, sfdc_whoami, create_case,
list_cases_for_account, update_case), the credential-exchange helper, and
the SOQL quote-escaping used when caller-supplied strings are embedded in
query text.  Backend effects (jsforce query/create/update/retrieve/identity)
are modelled by an oracle `Backend`; each handler returns the ToolResult it
would produce together with the list of backend calls it issued, so that
"no backend call is made" claims are provable.
-/

/-- A JavaScript/JSON value, as manipulated by the handlers.  `undef` models
JavaScript `undefined` (distinct from JSON `null`), which matters for
`result?.errors`, `res.records` and `JSON.stringify` semantics. -/
inductive Json where
  | undef : Json
  | null : Json
  | bool : Bool → Json
  | num : Int → Json
  | str : String → Json
  | arr : List Json → Json
  | obj : List (String × Json) → Json

/-- The single-quote character, written by code point to keep source plain. -/
def squote : Char := Char.ofNat 39

/-- The backslash character. -/
def bslash : Char := Char.ofNat 92

/-- Lower-case hex digit for a value below 16 (used by the string quoter). -/
def hexDigit (n : Nat) : Char :=
  if n < 10 then Char.ofNat (48 + n) else Char.ofNat (87 + n)

/-- JSON.stringify escaping of one character inside a string literal. -/
def jsonQuoteChar (c : Char) : String :=
  if c = Char.ofNat 34 then "\\\""
  else if c = bslash then "\\\\"
  else if c = Char.ofNat 10 then "\\n"
  else if c = Char.ofNat 13 then "\\r"
  else if c = Char.ofNat 9 then "\\t"
  else if c = Char.ofNat 8 then "\\b"
  else if c = Char.ofNat 12 then "\\f"
  else if c.toNat < 32 then
    "\\u00" ++ String.mk [hexDigit (c.toNat / 16), hexDigit (c.toNat % 16)]
  else String.singleton c

/-- JSON.stringify rendering of a string, quotes included. -/
def jsonQuote (s : String) : String :=
  "\"" ++ String.join (s.data.map jsonQuoteChar) ++ "\""

/-- A run of `n` spaces (JSON.stringify indentation). -/
def pad (n : Nat) : String := String.mk (List.replicate n (Char.ofNat 32))

/-- Renders a bracketed item list the way `JSON.stringify` does: compact when
`gap = 0`, otherwise each item on its own line indented by `gap * (ind+1)`
spaces with the closing bracket indented by `gap * ind`. -/
def joinItems (gap ind : Nat) (obr cbr : String) (items : List String) : String :=
  if items.isEmpty then obr ++ cbr
  else if gap = 0 then obr ++ String.intercalate "," items ++ cbr
  else
    obr ++ "\n"
      ++ String.intercalate ",\n" (items.map (fun s => pad (gap * (ind + 1)) ++ s))
      ++ "\n" ++ pad (gap * ind) ++ cbr

mutual
/-- Model of `JSON.stringify(v, null, gap)` at indentation depth `ind`:
`none` models the `undefined` result on a top-level `undefined` value;
inside arrays `undefined` renders as `null`; inside objects an entry with an
`undefined` value is omitted. -/
def jsonStringify (gap ind : Nat) : Json → Option String
  | .undef => none
  | .null => some "null"
  | .bool b => some (cond b "true" "false")
  | .num n => some (toString n)
  | .str s => some (jsonQuote s)
  | .arr xs => some (joinItems gap ind "[" "]" (jsonStringifyArr gap (ind + 1) xs))
  | .obj fs => some (joinItems gap ind "\x7b" "\x7d" (jsonStringifyObj gap (ind + 1) fs))

/-- Array elements under `JSON.stringify`: `undefined` becomes `"null"`. -/
def jsonStringifyArr (gap ind : Nat) : List Json → List String
  | [] => []
  | x :: xs =>
    ((jsonStringify gap ind x).getD "null") :: jsonStringifyArr gap ind xs

/-- Object members under `JSON.stringify`: entries whose value stringifies to
`undefined` are dropped; otherwise rendered as quoted key, separator, value. -/
def jsonStringifyObj (gap ind : Nat) : List (String × Json) → List String
  | [] => []
  | (k, v) :: fs =>
    match jsonStringify gap ind v with
    | none => jsonStringifyObj gap ind fs
    | some s =>
      (jsonQuote k ++ (if gap = 0 then ":" else ": ") ++ s) :: jsonStringifyObj gap ind fs
end

/-- `JSON.stringify(v, null, 2)`, as used by every handler's success payload. -/
def stringifyPretty (j : Json) : Option String := jsonStringify 2 0 j

/-- `JSON.stringify(v)` (compact), as used on a non-array `result.errors`. -/
def stringifyCompact (j : Json) : Option String := jsonStringify 0 0 j

mutual
/-- JavaScript string coercion of a value as performed by `Array.prototype.join`
on each element: `null`/`undefined` become empty, arrays join their elements
with commas, plain objects render as "[object Object]". -/
def joinStr : Json → String
  | .undef => ""
  | .null => ""
  | .bool b => cond b "true" "false"
  | .num n => toString n
  | .str s => s
  | .arr xs => joinStrArr xs
  | .obj _ => "[object Object]"

/-- Comma-joined element coercions of an array (JavaScript `String(array)`). -/
def joinStrArr : List Json → String
  | [] => ""
  | [x] => joinStr x
  | x :: y :: xs => joinStr x ++ "," ++ joinStrArr (y :: xs)
end

/-- JavaScript truthiness of a value. -/
def truthyJson : Json → Bool
  | .undef => false
  | .null => false
  | .bool b => b
  | .num n => n ≠ 0
  | .str s => s ≠ ""
  | .arr _ => true
  | .obj _ => true

/-- An optional string argument as the JavaScript value the handler sees
(`undefined` when the caller omitted it). -/
def jsOfOpt : Option String → Json
  | none => Json.undef
  | some s => Json.str s

/-- Truthiness of an optional string argument (`o ? ... : ...` in the source). -/
def truthyOpt (o : Option String) : Bool := truthyJson (jsOfOpt o)

/-- JavaScript property access `j.k`: `undefined` on anything but an object
that carries the key. -/
def getProp (j : Json) (k : String) : Json :=
  match j with
  | .obj fs => ((fs.find? (fun p => p.1 = k)).map Prod.snd).getD Json.undef
  | _ => Json.undef

/-! ### SOQL quote escaping and the SOQL string-literal lexer -/

/-- Character-level model of `s.replace(/'/g, "\\'")`: every single quote is
replaced by backslash-quote; all other characters pass through. -/
def escChars : List Char → List Char
  | [] => []
  | c :: cs => if c = squote then bslash :: squote :: escChars cs else c :: escChars cs

/-- The escaping applied in `create_case` (to `accountName`) and
`list_cases_for_account` (to `accountId`) before query interpolation. -/
def soqlEscape (s : String) : String := String.mk (escChars s.data)

/-- Scans a character list and checks that every single quote in it is
immediately preceded by a backslash (`prev` is the character before the
current position, if any). -/
def noBareQuoteFrom (prev : Option Char) : List Char → Bool
  | [] => true
  | c :: cs => (c ≠ squote || prev = some bslash) && noBareQuoteFrom (some c) cs

/-- Modelled from the SOQL specification: the character denoted by the escape
sequence backslash-`c` inside a SOQL string literal (n, r, t, b, f name
control characters; quote, double quote and backslash denote themselves). -/
def soqlUnescChar (c : Char) : Char :=
  if c = 'n' then Char.ofNat 10
  else if c = 'r' then Char.ofNat 13
  else if c = 't' then Char.ofNat 9
  else if c = 'b' then Char.ofNat 8
  else if c = 'f' then Char.ofNat 12
  else c

/-- Modelled from the SOQL specification: lexes a string literal's body (the
characters after the opening quote): a backslash consumes the next character
as an escape sequence, an unescaped single quote ends the literal.  Returns
the denoted value and the remaining query text, or `none` when the literal is
unterminated. -/
def soqlLexLit : List Char → Option (List Char × List Char)
  | [] => none
  | [c] => if c = squote then some ([], []) else none
  | c :: d :: ds =>
    if c = squote then some ([], d :: ds)
    else if c = bslash then
      (soqlLexLit ds).map (fun p => (soqlUnescChar d :: p.1, p.2))
    else
      (soqlLexLit (d :: ds)).map (fun p => (c :: p.1, p.2))

/-! ### Response envelope, backend oracle and call trace -/

/-- One element of a ToolResult's `content` sequence. -/
structure ContentItem where
  type : String
  text : String
deriving DecidableEq

/-- The universal response shape for every tool: in the source a returned
object without an `isError` key means `isError` is false. -/
structure ToolResult where
  content : List ContentItem
  isError : Bool
deriving DecidableEq

/-- Builds the `{ type: "text", text: s }` content item every handler returns. -/
def textContent (s : String) : ContentItem := ⟨"text", s⟩

/-- The `text` of a content item whose string was produced by `JSON.stringify`:
a `none` (JavaScript `undefined`) coerces to "undefined". -/
def jsTextOf (o : Option String) : String := o.getD "undefined"

/-- Result of a jsforce `query` call: `records` is the (possibly absent) list
of returned records. -/
structure QueryResult where
  records : Option (List Json)

/-- Result of a jsforce `create`/`update` call: explicit success flag plus an
`errors` value (an array of error details on failure). -/
structure SaveResult where
  id : Json
  success : Bool
  errors : Json

/-- Oracle for the backend: what each jsforce primitive would return for a
given argument.  A handler's behaviour is a pure function of its validated
arguments and this oracle. -/
structure Backend where
  queryRes : String → QueryResult
  retrieveRes : String → String → Json
  identityRes : Json
  createRes : String → List (String × Json) → Option SaveResult
  updateRes : String → List (String × Json) → Option SaveResult

/-- Trace entry: one backend call issued by a handler, with its arguments. -/
inductive BackendCall where
  | query : String → BackendCall
  | retrieve : String → String → BackendCall
  | identity : BackendCall
  | create : String → List (String × Json) → BackendCall
  | update : String → List (String × Json) → BackendCall

/-! ### Credential provider (`getConnClientCredentials`) -/

/-- A jsforce `Connection`, built from the token endpoint's JSON body. -/
structure Connection where
  instanceUrl : Json
  accessToken : Json

/-- The token endpoint's HTTP response as seen through `fetch`. -/
structure FetchResp where
  status : Nat
  bodyText : String
  bodyJson : Json

/-- `resp.ok` per the fetch specification: status in the 200–299 range. -/
def fetchOk (status : Nat) : Bool := 200 ≤ status && status ≤ 299

/-- `getConnClientCredentials` after the outbound POST: on a non-ok response
it throws an error interpolating the status and the response body text;
otherwise it builds a Connection from `instance_url` and `access_token` of
the JSON body. -/
def getConnClientCredentials (resp : FetchResp) : Except String Connection :=
  if !fetchOk resp.status then
    Except.error ("Salesforce token error: " ++ toString resp.status ++ " " ++ resp.bodyText)
  else
    Except.ok ⟨getProp resp.bodyJson "instance_url", getProp resp.bodyJson "access_token"⟩

/-- `getConn` just delegates to the client-credentials flow. -/
def getConn (resp : FetchResp) : Except String Connection := getConnClientCredentials resp

/-! ### Query builders and field mappings -/

/-- Text of the Account-lookup query before the interpolated safe name. -/
def acctQueryPre : String := "SELECT Id, Name FROM Account WHERE Name = \x27"

/-- Text of the Account-lookup query after the interpolated safe name: closing
quote, then ordering and limit clauses. -/
def acctQuerySuf : String := "\x27 ORDER BY CreatedDate DESC LIMIT 1"

/-- The SOQL text `create_case` builds to resolve an account display name. -/
def accountLookupQuery (name : String) : String :=
  acctQueryPre ++ soqlEscape name ++ acctQuerySuf

/-- Text of the list-cases query before the interpolated account id (the
source template literal keeps its newlines and indentation). -/
def listQueryPre : String :=
  "SELECT Id, CaseNumber, Subject, Status, Priority, CreatedDate\n        FROM Case\n        WHERE AccountId = \x27"

/-- Text of the list-cases query between the interpolated account id and the
interpolated limit. -/
def listQueryMid : String :=
  "\x27\n        ORDER BY CreatedDate DESC\n        LIMIT "

/-- The SOQL text `list_cases_for_account` builds for an account id and an
effective limit. -/
def listCasesQuery (accountId : String) (lim : Int) : String :=
  listQueryPre ++ soqlEscape accountId ++ listQueryMid ++ toString lim

/-- Validated arguments of `create_case` (zod schema: `subject` required, the
rest optional). -/
structure CreateCaseArgs where
  subject : String
  description : Option String
  origin : Option String
  priority : Option String
  status : Option String
  accountId : Option String
  accountName : Option String

/-- Validated arguments of `update_case`. -/
structure UpdateCaseArgs where
  caseId : String
  subject : Option String
  description : Option String
  status : Option String
  priority : Option String
  origin : Option String

/-- The field mapping `create_case` sends to `sobject("Case").create`:
`Subject` always, each optional field only when its argument is truthy, and
`AccountId` only when the resolved account id is truthy (object spread of
conditional singletons, in source order). -/
def createFields (a : CreateCaseArgs) (resolvedAccountId : Json) : List (String × Json) :=
  [("Subject", Json.str a.subject)]
    ++ (if truthyOpt a.description then [("Description", jsOfOpt a.description)] else [])
    ++ (if truthyOpt a.origin then [("Origin", jsOfOpt a.origin)] else [])
    ++ (if truthyOpt a.priority then [("Priority", jsOfOpt a.priority)] else [])
    ++ (if truthyOpt a.status then [("Status", jsOfOpt a.status)] else [])
    ++ (if truthyJson resolvedAccountId then [("AccountId", resolvedAccountId)] else [])

/-- The field mapping `update_case` sends to `sobject("Case").update`: the
`Id` always, each allow-listed field only when its argument is truthy. -/
def updateFields (u : UpdateCaseArgs) : List (String × Json) :=
  [("Id", Json.str u.caseId)]
    ++ (if truthyOpt u.subject then [("Subject", jsOfOpt u.subject)] else [])
    ++ (if truthyOpt u.description then [("Description", jsOfOpt u.description)] else [])
    ++ (if truthyOpt u.status then [("Status", jsOfOpt u.status)] else [])
    ++ (if truthyOpt u.priority then [("Priority", jsOfOpt u.priority)] else [])
    ++ (if truthyOpt u.origin then [("Origin", jsOfOpt u.origin)] else [])

/-! ### Handlers -/

/-- `soql_query`: runs the caller's query verbatim and returns the records. -/
def soql_query (soql : String) (b : Backend) : ToolResult × List BackendCall :=
  let res := b.queryRes soql
  let recordsJson := match res.records with
    | some l => Json.arr l
    | none => Json.undef
  (⟨[textContent (jsTextOf (stringifyPretty recordsJson))], false⟩, [BackendCall.query soql])

/-- `get_case`: retrieves a Case by id and returns it. -/
def get_case (caseId : String) (b : Backend) : ToolResult × List BackendCall :=
  (⟨[textContent (jsTextOf (stringifyPretty (b.retrieveRes "Case" caseId)))], false⟩,
    [BackendCall.retrieve "Case" caseId])

/-- `sfdc_whoami`: returns the identity claims. -/
def sfdc_whoami (b : Backend) : ToolResult × List BackendCall :=
  (⟨[textContent (jsTextOf (stringifyPretty b.identityRes))], false⟩, [BackendCall.identity])

/-- `result?.errors` of a possibly-null save result. -/
def saveErrorsOf : Option SaveResult → Json
  | some r => r.errors
  | none => Json.undef

/-- The `err` string of the save-failure branch: `Array.isArray(errors)` joins
the entries with "; ", otherwise `JSON.stringify(errors)` (which is
`undefined`, modelled `none`, when `errors` is `undefined`). -/
def saveErrText : Json → Option String
  | Json.arr xs => some (String.intercalate "; " (xs.map joinStr))
  | Json.undef => none
  | e => stringifyCompact e

/-- Template interpolation with fallback, `err || "Unknown error"`: an absent
(`undefined`) or empty string falls back. -/
def orUnknown : Option String → String
  | none => "Unknown error"
  | some s => if s = "" then "Unknown error" else s

/-- The success payload object of `create_case`:
`{ id, success: true, accountId: resolvedAccountId || null }`. -/
def createSuccessJson (r : SaveResult) (resolvedAccountId : Json) : Json :=
  Json.obj [("id", r.id), ("success", Json.bool true),
    ("accountId", if truthyJson resolvedAccountId then resolvedAccountId else Json.null)]

/-- The tail of `create_case` once the account id is resolved: builds the
field mapping, issues the create call (after any prior lookup calls in
`pre`), and maps a missing or unsuccessful save result to an error
ToolResult quoting the joined backend error detail. -/
def createWith (a : CreateCaseArgs) (resolvedAccountId : Json) (pre : List BackendCall)
    (b : Backend) : ToolResult × List BackendCall :=
  let fields := createFields a resolvedAccountId
  let calls := pre ++ [BackendCall.create "Case" fields]
  match b.createRes "Case" fields with
  | some r =>
    if r.success then
      (⟨[textContent (jsTextOf (stringifyPretty (createSuccessJson r resolvedAccountId)))],
        false⟩, calls)
    else
      (⟨[textContent ("Failed to create Case: " ++ orUnknown (saveErrText r.errors))], true⟩,
        calls)
  | none =>
    (⟨[textContent ("Failed to create Case: " ++ orUnknown (saveErrText Json.undef))], true⟩,
      calls)

/-- The `create_case` handler (post-validation): rejects when both account
arguments are truthy; resolves a truthy `accountName` through the
Account-lookup query, failing without any create call when it returns no
records; otherwise creates the Case. -/
def create_case (a : CreateCaseArgs) (b : Backend) : ToolResult × List BackendCall :=
  if truthyOpt a.accountId && truthyOpt a.accountName then
    (⟨[textContent "Provide either accountId OR accountName, not both."], true⟩, [])
  else if !truthyOpt a.accountId && truthyOpt a.accountName then
    let name := a.accountName.getD ""
    let q := accountLookupQuery name
    match (b.queryRes q).records with
    | some (r0 :: _) => createWith a (getProp r0 "Id") [BackendCall.query q] b
    | _ =>
      (⟨[textContent ("Account not found by name: \"" ++ name
          ++ "\". Provide accountId or create the Account first.")], true⟩,
        [BackendCall.query q])
  else
    createWith a (jsOfOpt a.accountId) [] b

/-- The `list_cases_for_account` handler (post-validation): effective limit
`limit ?? 10`, one query, records (or `[]` when absent) stringified. -/
def list_cases_for_account (accountId : String) (limit : Option Int) (b : Backend) :
    ToolResult × List BackendCall :=
  let lim := limit.getD 10
  let q := listCasesQuery accountId lim
  let res := b.queryRes q
  (⟨[textContent (jsTextOf (stringifyPretty (Json.arr (res.records.getD []))))], false⟩,
    [BackendCall.query q])

/-- zod validation of `list_cases_for_account` arguments: `accountId` at
least 10 characters; `limit`, when present, an integer between 1 and 20. -/
def listCasesArgsValid (accountId : String) (limit : Option Int) : Bool :=
  10 ≤ accountId.length &&
    (match limit with
     | none => true
     | some n => 1 ≤ n && n ≤ 20)

/-- Validation-then-dispatch for `list_cases_for_account`: invalid arguments
never reach the handler. -/
def list_cases_dispatch (accountId : String) (limit : Option Int) (b : Backend) :
    Option (ToolResult × List BackendCall) :=
  if listCasesArgsValid accountId limit then
    some (list_cases_for_account accountId limit b)
  else none

/-- The success payload object of `update_case`:
`{ id, success: true, updated: keys of the mapping other than Id }`. -/
def updateSuccessJson (u : UpdateCaseArgs) : Json :=
  Json.obj [("id", Json.str u.caseId), ("success", Json.bool true),
    ("updated", Json.arr ((((updateFields u).map Prod.fst).filter
      (fun k => k ≠ "Id")).map Json.str))]

/-- The `update_case` handler (post-validation): error without any backend
call when the mapping holds only the `Id` key; otherwise one update call,
with save failures mapped to an error ToolResult quoting the joined backend
error detail. -/
def update_case (u : UpdateCaseArgs) (b : Backend) : ToolResult × List BackendCall :=
  let updates := updateFields u
  if updates.length = 1 then
    (⟨[textContent "No fields provided to update."], true⟩, [])
  else
    match b.updateRes "Case" updates with
    | some r =>
      if r.success then
        (⟨[textContent (jsTextOf (stringifyPretty (updateSuccessJson u)))], false⟩,
          [BackendCall.update "Case" updates])
      else
        (⟨[textContent ("Failed to update Case: " ++ orUnknown (saveErrText r.errors))], true⟩,
          [BackendCall.update "Case" updates])
    | none =>
      (⟨[textContent ("Failed to update Case: " ++ orUnknown (saveErrText Json.undef))], true⟩,
        [BackendCall.update "Case" updates])

/-- Domain success of `create_case`: a create call was issued and the backend
answered it with a successful save result. -/
def createdCase (a : CreateCaseArgs) (b : Backend) : Prop :=
  ∃ f r, BackendCall.create "Case" f ∈ (create_case a b).2 ∧
    b.createRes "Case" f = some r ∧ r.success = true

/-- Domain success of `update_case`: an update call was issued and the backend
answered it with a successful save result. -/
def updatedCase (u : UpdateCaseArgs) (b : Backend) : Prop :=
  ∃ f r, BackendCall.update "Case" f ∈ (update_case u b).2 ∧
    b.updateRes "Case" f = some r ∧ r.success = true

/-! ### Escaping lemmas -/

/-- Every single quote in the output of the quote-escaper is immediately
preceded by a backslash, whatever character precedes the scanned text. -/
theorem noBareQuoteFrom_escChars (l : List Char) :
    ∀ prev, noBareQuoteFrom prev (escChars l) = true := by
  induction l with
  | nil => intro prev; rfl
  | cons c cs ih =>
    intro prev
    by_cases h : c = squote
    · subst h
      simp [escChars, noBareQuoteFrom, ih]
      exact Or.inl (by decide)
    · simp [escChars, h, noBareQuoteFrom, ih]

/-- For an input without backslashes, the SOQL lexer reads the escaped text
followed by a closing quote back to exactly the original characters, leaving
the remaining query text untouched. -/
theorem soqlLexLit_escChars (l : List Char) (rest : List Char) (h : bslash ∉ l) :
    soqlLexLit (escChars l ++ squote :: rest) = some (l, rest) := by
  induction l with
  | nil =>
    cases rest <;> simp [escChars, soqlLexLit]
  | cons c cs ih =>
    have hcs : bslash ∉ cs := fun hm => h (List.mem_cons_of_mem _ hm)
    have hcb : c ≠ bslash := fun he => h (he ▸ List.mem_cons_self _ _)
    by_cases hq : c = squote
    · subst hq
      simp only [escChars, if_pos rfl, List.cons_append, soqlLexLit]
      have hbs : bslash ≠ squote := by decide
      simp [hbs, ih hcs, soqlUnescChar]
      decide
    · cases hE : escChars cs ++ squote :: rest with
      | nil => simp [List.append_eq_nil] at hE
      | cons d ds =>
        simp only [escChars, if_neg hq, List.cons_append, hE, soqlLexLit]
        rw [← hE]
        simp [hq, hcb, ih hcs]

/-- Decomposition of the Account-lookup query suffix: closing quote then the
ordering and limit clauses. -/
theorem acctQuerySuf_data :
    acctQuerySuf.data = squote :: " ORDER BY CreatedDate DESC LIMIT 1".data := by decide

/-- Decomposition of the list-cases query middle part: closing quote then the
ordering clause up to the interpolated limit. -/
theorem listQueryMid_data :
    listQueryMid.data = squote :: "\n        ORDER BY CreatedDate DESC\n        LIMIT ".data := by
  decide

/-- C1 (amended).  In the query text built by `create_case` (account-name
lookup) and `list_cases_for_account`, every single quote of the interpolated
caller value appears backslash-escaped; and whenever the caller value
contains no backslash character, the SOQL lexer reads the embedded literal
back to exactly the original value with the intended remaining query text —
so the query addresses exactly the intended record.  (The backslash proviso
is forced: see the counterexample.) -/
theorem soql_escaping_addresses_intended (name accountId : String) :
    noBareQuoteFrom none (escChars name.data) = true ∧
    noBareQuoteFrom none (escChars accountId.data) = true ∧
    (bslash ∉ name.data →
      soqlLexLit ((soqlEscape name).data ++ acctQuerySuf.data)
        = some (name.data, " ORDER BY CreatedDate DESC LIMIT 1".data)) ∧
    (bslash ∉ accountId.data → ∀ lim : Int,
      soqlLexLit ((soqlEscape accountId).data ++ (listQueryMid ++ toString lim).data)
        = some (accountId.data,
            "\n        ORDER BY CreatedDate DESC\n        LIMIT ".data ++ (toString lim).data)) := by
  refine ⟨noBareQuoteFrom_escChars _ _, noBareQuoteFrom_escChars _ _, ?_, ?_⟩
  · intro h
    show soqlLexLit (escChars name.data ++ acctQuerySuf.data) = _
    rw [acctQuerySuf_data]
    exact soqlLexLit_escChars _ _ h
  · intro h lim
    show soqlLexLit (escChars accountId.data ++ (listQueryMid ++ toString lim).data) = _
    rw [String.data_append, listQueryMid_data, List.cons_append]
    exact soqlLexLit_escChars _ _ h

/-- C1 witness: a display name with an embedded quote (and no backslash) is
escaped and read back exactly, at a concrete input. -/
theorem soql_escaping_addresses_intended_witness :
    bslash ∉ (String.mk ['O', squote, 'x']).data ∧
    soqlLexLit ((soqlEscape (String.mk ['O', squote, 'x'])).data ++ acctQuerySuf.data)
      = some ((String.mk ['O', squote, 'x']).data, " ORDER BY CreatedDate DESC LIMIT 1".data) :=
  ⟨by decide,
    (soql_escaping_addresses_intended (String.mk ['O', squote, 'x']) "").2.2.1 (by decide)⟩

/-- C1 counterexample: for the display name backslash-quote, every quote in the
escaped text is backslash-preceded, yet the SOQL lexer does not read the
embedded literal back to the original value — the literal terminates early,
so the query does not address the intended record.  The claim as frozen
(escaped and denoting the original, for every quote-containing value) is
false at this input. -/
theorem soql_escaping_counterexample :
    ¬ (noBareQuoteFrom none (escChars (String.mk [bslash, squote]).data) = true ∧
       soqlLexLit ((soqlEscape (String.mk [bslash, squote])).data ++ acctQuerySuf.data)
         = some ((String.mk [bslash, squote]).data,
             " ORDER BY CreatedDate DESC LIMIT 1".data)) := by
  decide

/-! ### A concrete backend used by witnesses -/

/-- A backend whose queries return no records and whose save calls return no
result; enough to exercise validation and lookup-failure paths concretely. -/
def emptyBackend : Backend where
  queryRes := fun _ => ⟨some []⟩
  retrieveRes := fun _ _ => Json.undef
  identityRes := Json.undef
  createRes := fun _ _ => none
  updateRes := fun _ _ => none

/-- C2.  When the validated arguments carry both an account id and an account
display name (both nonempty, as validation guarantees), `create_case`
returns an error ToolResult and issues no backend call at all — in
particular no create call. -/
theorem create_case_both_account_args_rejected (a : CreateCaseArgs) (b : Backend)
    (i n : String) (hi : a.accountId = some i) (hin : i ≠ "")
    (hn : a.accountName = some n) (hnn : n ≠ "") :
    (create_case a b).1.isError = true ∧ (create_case a b).2 = [] := by
  simp [create_case, truthyOpt, jsOfOpt, truthyJson, hi, hn, hin, hnn]

/-- C2 witness at a concrete argument record. -/
theorem create_case_both_account_args_rejected_witness :
    (⟨"Printer down", none, none, none, none, some "0015500000AAAAA",
        some "ACME Corp"⟩ : CreateCaseArgs).accountId = some "0015500000AAAAA" ∧
    (create_case ⟨"Printer down", none, none, none, none, some "0015500000AAAAA",
        some "ACME Corp"⟩ emptyBackend).1.isError = true ∧
    (create_case ⟨"Printer down", none, none, none, none, some "0015500000AAAAA",
        some "ACME Corp"⟩ emptyBackend).2 = [] :=
  ⟨rfl,
    create_case_both_account_args_rejected _ emptyBackend "0015500000AAAAA" "ACME Corp"
      rfl (by decide) rfl (by decide)⟩

/-- C3.  When `create_case` is given only an account display name and the
lookup query returns no records (absent or empty list), the result is an
error ToolResult naming the unresolved account, the only backend call is the
lookup query, and no create call is issued. -/
theorem create_case_unresolved_account (a : CreateCaseArgs) (b : Backend) (n : String)
    (hid : a.accountId = none) (hn : a.accountName = some n) (hnn : n ≠ "")
    (hq : (b.queryRes (accountLookupQuery n)).records = none ∨
          (b.queryRes (accountLookupQuery n)).records = some []) :
    (create_case a b).1 = ⟨[textContent ("Account not found by name: \"" ++ n
        ++ "\". Provide accountId or create the Account first.")], true⟩ ∧
    (create_case a b).2 = [BackendCall.query (accountLookupQuery n)] ∧
    ∀ f, BackendCall.create "Case" f ∉ (create_case a b).2 := by
  have h2 : (create_case a b).2 = [BackendCall.query (accountLookupQuery n)] := by
    rcases hq with h | h <;>
      simp [create_case, truthyOpt, jsOfOpt, truthyJson, hid, hn, hnn, h]
  refine ⟨?_, h2, ?_⟩
  · rcases hq with h | h <;>
      simp [create_case, truthyOpt, jsOfOpt, truthyJson, hid, hn, hnn, h, textContent]
  · intro f
    rw [h2]
    simp

/-- C3 witness: a name that resolves to zero accounts on a concrete backend. -/
theorem create_case_unresolved_account_witness :
    (emptyBackend.queryRes (accountLookupQuery "Ghost Co")).records = some [] ∧
    (create_case ⟨"S", none, none, none, none, none, some "Ghost Co"⟩ emptyBackend).1
      = ⟨[textContent ("Account not found by name: \"Ghost Co\". "
          ++ "Provide accountId or create the Account first.")], true⟩ ∧
    (create_case ⟨"S", none, none, none, none, none, some "Ghost Co"⟩ emptyBackend).2
      = [BackendCall.query (accountLookupQuery "Ghost Co")] := by
  have h := create_case_unresolved_account
    ⟨"S", none, none, none, none, none, some "Ghost Co"⟩ emptyBackend "Ghost Co"
    rfl rfl (by decide) (Or.inr rfl)
  exact ⟨rfl, h.1, h.2.1⟩

/-- C4.  When `update_case` is called with none of the allow-listed editable
fields, the result is an error ToolResult and no backend call is issued. -/
theorem update_case_no_fields_rejected (u : UpdateCaseArgs) (b : Backend)
    (hs : u.subject = none) (hd : u.description = none) (hst : u.status = none)
    (hp : u.priority = none) (ho : u.origin = none) :
    (update_case u b).1.isError = true ∧ (update_case u b).2 = [] := by
  simp [update_case, updateFields, truthyOpt, jsOfOpt, truthyJson, hs, hd, hst, hp, ho]

/-- C4 witness at a concrete argument record. -/
theorem update_case_no_fields_rejected_witness :
    (⟨"5005500000AAAAA", none, none, none, none, none⟩ : UpdateCaseArgs).subject = none ∧
    (update_case ⟨"5005500000AAAAA", none, none, none, none, none⟩ emptyBackend).1.isError
      = true ∧
    (update_case ⟨"5005500000AAAAA", none, none, none, none, none⟩ emptyBackend).2 = [] :=
  ⟨rfl, update_case_no_fields_rejected _ emptyBackend rfl rfl rfl rfl rfl⟩

/-- The join coercion is the identity on string entries, element-wise. -/
theorem joinStr_str_map (l : List String) : (l.map Json.str).map joinStr = l := by
  induction l with
  | nil => rfl
  | cons x xs ih => simp [joinStr, ih]

/-- The call trace of the create tail is the prior calls followed by exactly
one create call carrying the built field mapping, whatever the backend
answers. -/
theorem createWith_calls (a : CreateCaseArgs) (rid : Json) (pre : List BackendCall)
    (b : Backend) :
    (createWith a rid pre b).2 = pre ++ [BackendCall.create "Case" (createFields a rid)] := by
  simp only [createWith]
  split
  · split <;> rfl
  · rfl

/-- If the create tail's trace contains a create call whose backend answer has
its success flag unset with an array of error details, the create tail
returns the error ToolResult quoting those details joined with "; " (the
source substitutes "Unknown error" only when the joined text is empty). -/
theorem createWith_failure (a : CreateCaseArgs) (rid : Json) (pre : List BackendCall)
    (b : Backend) (cf : List (String × Json)) (rc : SaveResult) (es : List Json)
    (hpre : ∀ f, BackendCall.create "Case" f ∉ pre)
    (hmem : BackendCall.create "Case" cf ∈ (createWith a rid pre b).2)
    (hr : b.createRes "Case" cf = some rc)
    (hs : rc.success = false)
    (he : rc.errors = Json.arr es) :
    (createWith a rid pre b).1
      = ⟨[textContent ("Failed to create Case: "
          ++ (if String.intercalate "; " (es.map joinStr) = "" then "Unknown error"
              else String.intercalate "; " (es.map joinStr)))], true⟩ := by
  rw [createWith_calls] at hmem
  have hcf : cf = createFields a rid := by
    simpa [List.mem_append, hpre cf] using hmem
  subst hcf
  simp only [createWith, hr]
  simp [hs, saveErrText, he, orUnknown]

/-- C5.  Whenever a `create_case` or `update_case` invocation issues a backend
create/update call — on any argument path, the account-name-resolution one
included — and the backend's save result has its success flag unset with an
array of error details, the handler returns (rather than throws: the
embedding is a total function into ToolResults) an error ToolResult whose
text is the fixed failure message followed by the backend's error details
joined with "; " (the source substitutes "Unknown error" only when that
joined text is empty). -/
theorem save_failure_surfaced (a : CreateCaseArgs) (u : UpdateCaseArgs) (b : Backend)
    (rc ru : SaveResult) (cf uf : List (String × Json)) (es fs : List Json) :
    (BackendCall.create "Case" cf ∈ (create_case a b).2 →
      b.createRes "Case" cf = some rc → rc.success = false → rc.errors = Json.arr es →
      (create_case a b).1
        = ⟨[textContent ("Failed to create Case: "
            ++ (if String.intercalate "; " (es.map joinStr) = "" then "Unknown error"
                else String.intercalate "; " (es.map joinStr)))], true⟩) ∧
    (BackendCall.update "Case" uf ∈ (update_case u b).2 →
      b.updateRes "Case" uf = some ru → ru.success = false → ru.errors = Json.arr fs →
      (update_case u b).1
        = ⟨[textContent ("Failed to update Case: "
            ++ (if String.intercalate "; " (fs.map joinStr) = "" then "Unknown error"
                else String.intercalate "; " (fs.map joinStr)))], true⟩) := by
  constructor
  · intro hmem hr hs he
    by_cases h1 : (truthyOpt a.accountId && truthyOpt a.accountName) = true
    · simp [create_case, h1] at hmem
    · by_cases h2 : (!truthyOpt a.accountId && truthyOpt a.accountName) = true
      · cases hq : (b.queryRes (accountLookupQuery (a.accountName.getD ""))).records with
        | none =>
          simp [create_case, h1, h2, hq] at hmem
        | some l =>
          cases l with
          | nil => simp [create_case, h1, h2, hq] at hmem
          | cons r0 rs =>
            have hred : create_case a b
                = createWith a (getProp r0 "Id")
                    [BackendCall.query (accountLookupQuery (a.accountName.getD ""))] b := by
              simp [create_case, h1, h2, hq]
            rw [hred] at hmem ⊢
            exact createWith_failure _ _ _ _ _ _ _ (by simp) hmem hr hs he
      · have hred : create_case a b = createWith a (jsOfOpt a.accountId) [] b := by
          simp [create_case, h1, h2]
        rw [hred] at hmem ⊢
        exact createWith_failure _ _ _ _ _ _ _ (by simp) hmem hr hs he
  · intro hmem hr hs he
    by_cases h1 : (updateFields u).length = 1
    · simp [update_case, h1] at hmem
    · have htr : (update_case u b).2 = [BackendCall.update "Case" (updateFields u)] := by
        simp only [update_case, h1, if_false]
        split
        · split <;> rfl
        · rfl
      rw [htr] at hmem
      have huf : uf = updateFields u := by simpa using hmem
      subst huf
      simp only [update_case, h1, if_false, hr]
      simp [hs, saveErrText, he, orUnknown]

/-- A backend that resolves any account-name lookup to one concrete Account
and reports a structured failure on every save call, for the C5 witness. -/
def failingBackend : Backend where
  queryRes := fun _ =>
    ⟨some [Json.obj [("Id", Json.str "0015500000BBBBB"), ("Name", Json.str "ACME Corp")]]⟩
  retrieveRes := fun _ _ => Json.undef
  identityRes := Json.undef
  createRes := fun _ _ =>
    some ⟨Json.null, false, Json.arr [Json.str "REQUIRED_FIELD_MISSING", Json.str "boom"]⟩
  updateRes := fun _ _ =>
    some ⟨Json.null, false, Json.arr [Json.str "INVALID_STATUS"]⟩

/-- C5 witness: a create invocation that reaches its failing create call
through the account-name-resolution path, and an update invocation supplying
only a description, both surfacing the joined backend detail. -/
theorem save_failure_surfaced_witness :
    BackendCall.create "Case"
        (createFields ⟨"Subj", none, none, none, none, none, some "ACME Corp"⟩
          (Json.str "0015500000BBBBB"))
      ∈ (create_case ⟨"Subj", none, none, none, none, none, some "ACME Corp"⟩
          failingBackend).2 ∧
    (create_case ⟨"Subj", none, none, none, none, none, some "ACME Corp"⟩ failingBackend).1
      = ⟨[textContent "Failed to create Case: REQUIRED_FIELD_MISSING; boom"], true⟩ ∧
    BackendCall.update "Case"
        (updateFields ⟨"5005500000AAAAA", none, some "New description", none, none, none⟩)
      ∈ (update_case ⟨"5005500000AAAAA", none, some "New description", none, none, none⟩
          failingBackend).2 ∧
    (update_case ⟨"5005500000AAAAA", none, some "New description", none, none, none⟩
        failingBackend).1
      = ⟨[textContent "Failed to update Case: INVALID_STATUS"], true⟩ := by
  have htrc : (create_case ⟨"Subj", none, none, none, none, none, some "ACME Corp"⟩
        failingBackend).2
      = [BackendCall.query (accountLookupQuery "ACME Corp"),
         BackendCall.create "Case"
           (createFields ⟨"Subj", none, none, none, none, none, some "ACME Corp"⟩
             (Json.str "0015500000BBBBB"))] := rfl
  have hmemc : BackendCall.create "Case"
      (createFields ⟨"Subj", none, none, none, none, none, some "ACME Corp"⟩
        (Json.str "0015500000BBBBB"))
      ∈ (create_case ⟨"Subj", none, none, none, none, none, some "ACME Corp"⟩
          failingBackend).2 := by
    rw [htrc]
    exact List.Mem.tail _ (List.Mem.head _)
  have htru : (update_case ⟨"5005500000AAAAA", none, some "New description", none, none, none⟩
        failingBackend).2
      = [BackendCall.update "Case"
          (updateFields ⟨"5005500000AAAAA", none, some "New description", none, none,
            none⟩)] := rfl
  have hmemu : BackendCall.update "Case"
      (updateFields ⟨"5005500000AAAAA", none, some "New description", none, none, none⟩)
      ∈ (update_case ⟨"5005500000AAAAA", none, some "New description", none, none, none⟩
          failingBackend).2 := by
    rw [htru]
    exact List.Mem.head _
  have h := save_failure_surfaced
    ⟨"Subj", none, none, none, none, none, some "ACME Corp"⟩
    ⟨"5005500000AAAAA", none, some "New description", none, none, none⟩ failingBackend
    ⟨Json.null, false, Json.arr [Json.str "REQUIRED_FIELD_MISSING", Json.str "boom"]⟩
    ⟨Json.null, false, Json.arr [Json.str "INVALID_STATUS"]⟩
    (createFields ⟨"Subj", none, none, none, none, none, some "ACME Corp"⟩
      (Json.str "0015500000BBBBB"))
    (updateFields ⟨"5005500000AAAAA", none, some "New description", none, none, none⟩)
    [Json.str "REQUIRED_FIELD_MISSING", Json.str "boom"] [Json.str "INVALID_STATUS"]
  exact ⟨hmemc, h.1 hmemc rfl rfl rfl, hmemu, h.2 hmemu rfl rfl rfl⟩

/-- On the create tail, the result's `isError` is false exactly when the issued
create call was answered with a successful save result (provided the prior
calls contain no create call). -/
theorem createWith_isError_iff (a : CreateCaseArgs) (rid : Json) (pre : List BackendCall)
    (b : Backend) (hpre : ∀ f, BackendCall.create "Case" f ∉ pre) :
    ((createWith a rid pre b).1.isError = false ↔
      ∃ f r, BackendCall.create "Case" f ∈ (createWith a rid pre b).2 ∧
        b.createRes "Case" f = some r ∧ r.success = true) := by
  have hmem : ∀ f, (BackendCall.create "Case" f
      ∈ pre ++ [BackendCall.create "Case" (createFields a rid)]) ↔ f = createFields a rid := by
    intro f
    simp [List.mem_append, hpre f]
  cases h : b.createRes "Case" (createFields a rid) with
  | none =>
    simp only [createWith, h]
    simp only [hmem]
    constructor
    · intro hfalse
      exact absurd hfalse (by simp)
    · rintro ⟨f, r, hf, hr, _⟩
      rw [hf] at hr
      rw [h] at hr
      exact absurd hr (by simp)
  | some r =>
    cases hs : r.success with
    | false =>
      simp only [createWith, h, hs, Bool.false_eq_true, if_false]
      simp only [hmem]
      constructor
      · intro hfalse
        exact absurd hfalse (by simp)
      · rintro ⟨f, r2, hf, hr, hr2⟩
        rw [hf, h] at hr
        cases hr
        rw [hs] at hr2
        exact absurd hr2 (by simp)
    | true =>
      simp only [createWith, h, hs, if_true]
      simp only [hmem]
      constructor
      · intro _
        exact ⟨createFields a rid, r, rfl, h, hs⟩
      · intro _
        trivial

/-- `create_case` returns `isError` false exactly when a Case was created:
a create call issued and answered successfully. -/
theorem create_case_isError_iff (a : CreateCaseArgs) (b : Backend) :
    ((create_case a b).1.isError = false ↔ createdCase a b) := by
  unfold createdCase
  by_cases h1 : (truthyOpt a.accountId && truthyOpt a.accountName) = true
  · simp [create_case, h1]
  · by_cases h2 : (!truthyOpt a.accountId && truthyOpt a.accountName) = true
    · cases hr : (b.queryRes (accountLookupQuery (a.accountName.getD ""))).records with
      | none =>
        simp [create_case, h1, h2, hr]
      | some l =>
        cases l with
        | nil => simp [create_case, h1, h2, hr]
        | cons r0 rs =>
          have hred : create_case a b
              = createWith a (getProp r0 "Id")
                  [BackendCall.query (accountLookupQuery (a.accountName.getD ""))] b := by
            simp [create_case, h1, h2, hr]
          rw [hred]
          exact createWith_isError_iff _ _ _ _ (by simp)
    · have hred : create_case a b = createWith a (jsOfOpt a.accountId) [] b := by
        simp [create_case, h1, h2]
      rw [hred]
      exact createWith_isError_iff _ _ _ _ (by simp)

/-- `update_case` returns `isError` false exactly when the Case was updated:
an update call issued and answered successfully. -/
theorem update_case_isError_iff (u : UpdateCaseArgs) (b : Backend) :
    ((update_case u b).1.isError = false ↔ updatedCase u b) := by
  unfold updatedCase
  by_cases h1 : (updateFields u).length = 1
  · simp [update_case, h1]
  · cases h : b.updateRes "Case" (updateFields u) with
    | none =>
      simp only [update_case, h1, if_false, h]
      constructor
      · intro hfalse
        exact absurd hfalse (by simp)
      · rintro ⟨f, r, hf, hr, _⟩
        simp only [List.mem_singleton] at hf
        cases hf
        rw [h] at hr
        exact absurd hr (by simp)
    | some r =>
      cases hs : r.success with
      | false =>
        simp only [update_case, h1, if_false, h, hs, Bool.false_eq_true]
        constructor
        · intro hfalse
          exact absurd hfalse (by simp)
        · rintro ⟨f, r2, hf, hr, hr2⟩
          simp only [List.mem_singleton] at hf
          cases hf
          rw [h] at hr
          cases hr
          rw [hs] at hr2
          exact absurd hr2 (by simp)
      | true =>
        simp only [update_case, h1, if_false, h, hs, if_true]
        constructor
        · intro _
          exact ⟨updateFields u, r, by simp, h, hs⟩
        · intro _
          trivial

/-- C6.  Across the six tool handlers, an error-flagged ToolResult never
coincides with a successful domain outcome, and `isError` is false exactly
when the domain action fully succeeded: the four read-style handlers flag no
error on any backend reply they return, and the two writing handlers flag
no error exactly when their save call was issued and reported success. -/
theorem iserror_iff_domain_success (s cid aid : String) (limit : Option Int)
    (a : CreateCaseArgs) (u : UpdateCaseArgs) (b : Backend) :
    (soql_query s b).1.isError = false ∧
    (get_case cid b).1.isError = false ∧
    (sfdc_whoami b).1.isError = false ∧
    (list_cases_for_account aid limit b).1.isError = false ∧
    ((create_case a b).1.isError = false ↔ createdCase a b) ∧
    ((update_case u b).1.isError = false ↔ updatedCase u b) :=
  ⟨rfl, rfl, rfl, rfl, create_case_isError_iff a b, update_case_isError_iff u b⟩

/-- C7.  A `limit` above the zod ceiling of 20 fails validation, so the
dispatcher never runs the `list_cases_for_account` handler; and omitting
`limit` makes the handler behave identically to supplying 10. -/
theorem list_cases_limit_ceiling_and_default (accountId : String) (b : Backend)
    (n : Int) (h : 20 < n) :
    list_cases_dispatch accountId (some n) b = none ∧
    list_cases_for_account accountId none b = list_cases_for_account accountId (some 10) b := by
  constructor
  · have hv : listCasesArgsValid accountId (some n) = false := by
      simp only [listCasesArgsValid]
      have : (n ≤ 20) = False := by simp; omega
      simp [this]
    simp [list_cases_dispatch, hv]
  · rfl

/-- C7 witness: limit 25 is rejected before dispatch; omitted limit equals
limit 10, on a concrete account id. -/
theorem list_cases_limit_ceiling_and_default_witness :
    (20 : Int) < 25 ∧
    list_cases_dispatch "0015500000AAAAA" (some 25) emptyBackend = none ∧
    list_cases_for_account "0015500000AAAAA" none emptyBackend
      = list_cases_for_account "0015500000AAAAA" (some 10) emptyBackend :=
  ⟨by decide, list_cases_limit_ceiling_and_default "0015500000AAAAA" emptyBackend 25 (by decide)⟩

/-- Key membership for a conditionally-spread singleton field. -/
theorem mem_map_fst_cond (c : Bool) (key : String) (v : Json) (k : String) :
    (k ∈ (if c then [(key, v)] else []).map Prod.fst) ↔ (c = true ∧ k = key) := by
  cases c <;> simp

/-- C8.  The field mapping sent to the backend by `create_case` (for a given
resolved account id) and by `update_case` carries the required
identifier/subject entry with the caller's value, and a key is present in it
exactly when it is the required key or its optional argument was supplied
truthy (non-empty); omitted parameters never appear. -/
theorem field_mappings_exactly_supplied (a : CreateCaseArgs) (rid : Json)
    (u : UpdateCaseArgs) :
    (("Subject", Json.str a.subject) ∈ createFields a rid) ∧
    (("Id", Json.str u.caseId) ∈ updateFields u) ∧
    (∀ k : String, k ∈ (createFields a rid).map Prod.fst ↔
      (k = "Subject" ∨ (truthyOpt a.description = true ∧ k = "Description")
        ∨ (truthyOpt a.origin = true ∧ k = "Origin")
        ∨ (truthyOpt a.priority = true ∧ k = "Priority")
        ∨ (truthyOpt a.status = true ∧ k = "Status")
        ∨ (truthyJson rid = true ∧ k = "AccountId"))) ∧
    (∀ k : String, k ∈ (updateFields u).map Prod.fst ↔
      (k = "Id" ∨ (truthyOpt u.subject = true ∧ k = "Subject")
        ∨ (truthyOpt u.description = true ∧ k = "Description")
        ∨ (truthyOpt u.status = true ∧ k = "Status")
        ∨ (truthyOpt u.priority = true ∧ k = "Priority")
        ∨ (truthyOpt u.origin = true ∧ k = "Origin"))) := by
  refine ⟨by simp [createFields], by simp [updateFields], ?_, ?_⟩
  · intro k
    simp only [createFields, List.map_append, List.mem_append, mem_map_fst_cond]
    simp
    tauto
  · intro k
    simp only [updateFields, List.map_append, List.mem_append, mem_map_fst_cond]
    simp
    tauto

/-- C9.  On a non-success token-endpoint status, the credential flow fails
with an error whose payload interpolates both the status code and the
response body, and no Connection (session descriptor) is produced. -/
theorem token_error_includes_status_and_body (resp : FetchResp)
    (h : fetchOk resp.status = false) :
    getConnClientCredentials resp
      = Except.error ("Salesforce token error: " ++ toString resp.status ++ " "
          ++ resp.bodyText) ∧
    ∀ c : Connection, getConnClientCredentials resp ≠ Except.ok c := by
  have he : getConnClientCredentials resp
      = Except.error ("Salesforce token error: " ++ toString resp.status ++ " "
          ++ resp.bodyText) := by
    simp [getConnClientCredentials, h]
  refine ⟨he, ?_⟩
  intro c hc
  rw [he] at hc
  exact absurd hc (by simp)

/-- C9 witness: a concrete 400 response. -/
theorem token_error_includes_status_and_body_witness :
    fetchOk 400 = false ∧
    getConnClientCredentials ⟨400, "invalid_client", Json.null⟩
      = Except.error "Salesforce token error: 400 invalid_client" :=
  ⟨by decide,
    (token_error_includes_status_and_body ⟨400, "invalid_client", Json.null⟩ (by decide)).1⟩

/-- C10.  When the list-cases query succeeds with zero records — or with no
records field at all — the handler returns a success ToolResult whose text
is the empty JSON array, never an error. -/
theorem list_cases_empty_is_success (accountId : String) (limit : Option Int) (b : Backend)
    (h : (b.queryRes (listCasesQuery accountId (limit.getD 10))).records = none ∨
         (b.queryRes (listCasesQuery accountId (limit.getD 10))).records = some []) :
    (list_cases_for_account accountId limit b).1 = ⟨[textContent "[]"], false⟩ := by
  have harr : stringifyPretty (Json.arr []) = some "[]" := by
    simp [stringifyPretty, jsonStringify, jsonStringifyArr, joinItems]
  rcases h with h | h <;>
    simp [list_cases_for_account, h, harr, jsTextOf]

/-- C10 witness: a concrete account on a backend returning an empty record
list. -/
theorem list_cases_empty_is_success_witness :
    (emptyBackend.queryRes (listCasesQuery "0015500000AAAAA" 10)).records = some [] ∧
    (list_cases_for_account "0015500000AAAAA" none emptyBackend).1
      = ⟨[textContent "[]"], false⟩ :=
  ⟨rfl, list_cases_empty_is_success "0015500000AAAAA" none emptyBackend (Or.inr rfl)⟩
